import Mathlib

/-!
Shallow embedding of the orchestration engine in `src/run.ts` of the
changesets action fork, together with theorems settling the frozen claims.

Conventions of the embedding:
* JavaScript strings are Lean `String`s; every character occurring in the
  embedded literals is in the Basic Multilingual Plane, so JavaScript's
  UTF-16 `.length` agrees with Lean's code-point `String.length`.
  Characters such as the apostrophe, the double quote and the backtick are
  written with `\xNN` escapes; they denote the same single character.
* A thrown JavaScript error is a `ThrownError` value carrying its message
  and its optional `code` property; `try`/`catch` becomes `Except`.
* Asynchronous effects (network calls, subprocesses) are made explicit:
  functions take the data those effects would produce (file contents,
  search results, response sequences) as arguments and return the requests
  they would issue (release-creation calls, PR actions) as data.
-/

namespace ChangesetsAction

/-- A workspace package as the engine sees it: the `name`, `version` and
`private` fields of its `package.json` (from `@manypkg/get-packages`).
`private` is a Lean keyword, so the field is called `isPrivate`. -/
structure Package where
  name : String
  version : String
  isPrivate : Bool
deriving DecidableEq, Repr

/-- Result of `getChangelogEntry` (imported from `./utils`): the extracted
section text and its heading-depth ranking. -/
structure ChangelogEntry where
  content : String
  highestLevel : Int
deriving DecidableEq, Repr

/-- A thrown JavaScript error: its message together with its optional
`code` property (`fs` errors carry `code`, a plain `new Error(...)` does
not). -/
structure ThrownError where
  message : String
  code : Option String
deriving DecidableEq, Repr

/-- The catch clause of `createRelease` (run.ts:105-115): the caught error
is rethrown iff `err && typeof err === "object" && "code" in err &&
err.code !== "ENOENT"`, i.e. iff the error has a `code` property and that
code is not `"ENOENT"`. -/
def rethrownByCatch (e : ThrownError) : Bool :=
  match e.code with
  | some c => c != "ENOENT"
  | none => false

/-- Observable outcome of one `createRelease` call. -/
inductive ReleaseOutcome
  | created (tagName : String) (body : String) (prerelease : Bool)
  | skipped
  | failed (message : String)
deriving DecidableEq, Repr

/-- The try block of `createRelease` (run.ts:65-104).
`changelogFile` is the result of `fs.readFile` on `<pkg.dir>/CHANGELOG.md`
(`none` means the file is absent, in which case `readFile` throws an error
whose `code` is `"ENOENT"`).  `getEntry` stands for the imported
`getChangelogEntry` utility.  When no entry is found a plain `Error` with
no `code` property is thrown (run.ts:74-76).  `backendOk` is whether the
release-creation request succeeds; a failing request throws an error that
also has no `code` property (run.ts:95). -/
def createReleaseTry (changelogFile : Option String)
    (getEntry : String → String → Option ChangelogEntry)
    (pkgName pkgVersion tagName : String) (backendOk : Bool) :
    Except ThrownError (String × String × Bool) :=
  match changelogFile with
  | none => .error ⟨"ENOENT: no such file or directory", some "ENOENT"⟩
  | some changelog =>
    match getEntry changelog pkgVersion with
    | none =>
      .error ⟨"Could not find changelog entry for " ++ pkgName ++ "@" ++ pkgVersion, none⟩
    | some entry =>
      if backendOk then
        .ok (tagName, entry.content, pkgVersion.toList.any (fun c => c = '-'))
      else
        .error ⟨"backend error", none⟩

/-- `createRelease` (run.ts:61-116): the try block wrapped in the catch
clause.  An error is propagated to the caller only when `rethrownByCatch`
holds; otherwise the function returns silently without creating a
release. -/
def createRelease (changelogFile : Option String)
    (getEntry : String → String → Option ChangelogEntry)
    (pkgName pkgVersion tagName : String) (backendOk : Bool) : ReleaseOutcome :=
  match createReleaseTry changelogFile getEntry pkgName pkgVersion tagName backendOk with
  | .ok (t, b, p) => .created t b p
  | .error e => if rethrownByCatch e then .failed e.message else .skipped

/-- The `onRateLimit` / `onSecondaryRateLimit` callbacks installed by
`setupOctokit` (run.ts:31-55): both return `true` (retry) when
`retryCount <= 2` and `undefined` (falsy, do not retry) otherwise.
`retryCount` is the number of retries already performed for this call. -/
def onRateLimit (retryCount : Nat) : Bool :=
  retryCount ≤ 2

/-- Driver contract of the `@octokit/plugin-throttling` plugin wired in by
`setupOctokit`: each element of `responses` says whether the next attempt
of the call comes back rate-limited (`true`) or succeeds (`false`; an
exhausted list also means the next attempt succeeds).  On a rate-limited
attempt the callback is consulted with the current retry count; a truthy
result retries after the backend-provided delay, a falsy one surfaces the
failure.  The result carries the number of retries performed:
`.ok n` is a success after `n` retries, `.error n` a surfaced rate-limit
failure after `n` retries. -/
def throttledAttempt : List Bool → Nat → Except Nat Nat
  | [], retryCount => .ok retryCount
  | r :: rest, retryCount =>
    if r then
      if onRateLimit retryCount then throttledAttempt rest (retryCount + 1)
      else .error retryCount
    else .ok retryCount

/-- One element of `changedPackagesInfo` as consumed by `getVersionPrBody`
(run.ts:247-252): the changelog entry of one changed package plus its
`## name@version` header.  The source field `private` is a Lean keyword and
is called `isPrivate` here. -/
structure PackageInfo where
  highestLevel : Int
  isPrivate : Bool
  content : String
  header : String
deriving DecidableEq, Repr

/-- JavaScript `Array.prototype.join("\n")`: the empty array joins to the
empty string, otherwise the elements are interleaved with single newline
separators. -/
def joinLines : List String → String
  | [] => ""
  | [x] => x
  | x :: y :: ys => x ++ "\n" ++ joinLines (y :: ys)

/-- `messageHeader` of `getVersionPrBody` (run.ts:264-269).  Apostrophes
are written `\x27`; the template literal ends with a newline. -/
def messageHeader (hasPublishScript : Bool) (branch : String) : String :=
  "This PR was opened by the [Changesets release](https://github.com/changesets/action) GitHub action. When you\x27re ready to do a release, you can merge this and " ++
    (if hasPublishScript then
      "the packages will be published to npm automatically"
    else
      "publish to npm yourself or [setup this action to publish automatically](https://github.com/changesets/action#with-publishing)") ++
    ". If you\x27re not ready to do a release yet, that\x27s fine, whenever you add more changesets to " ++
    branch ++ ", this PR will be updated.\n"

/-- The six-warning-sign line of the pre-mode block: each sign is
U+26A0 followed by the variation selector U+FE0F, exactly as in the
source literal (length 12 in both UTF-16 units and code points). -/
def warningSigns : String :=
  "⚠️⚠️⚠️⚠️⚠️⚠️"

/-- `messagePrestate` of `getVersionPrBody` (run.ts:270-277): the pre-mode
warning block when `preState` is truthy, the empty string otherwise.
Backticks are written `\x60`. -/
def messagePrestate (preState : Bool) (branch : String) : String :=
  if preState then
    warningSigns ++ "\n\n\x60" ++ branch ++
      "\x60 is currently in **pre mode** so this branch has prereleases rather than normal releases. If you want to exit prereleases, run \x60changeset pre exit\x60 on \x60" ++
      branch ++ "\x60.\n\n" ++ warningSigns ++ "\n"
  else ""

/-- `messageReleasesHeading` of `getVersionPrBody` (run.ts:278). -/
def messageReleasesHeading : String := "# Releases"

/-- The one-line notice inserted by degradation step 1 (run.ts:294). -/
def noticeChangelogsOmitted : String :=
  "\n> The changelog information of each package has been omitted from this message, as the content exceeds the size limit.\n"

/-- The one-line notice inserted by degradation step 2 (run.ts:306). -/
def noticeAllOmitted : String :=
  "\n> All release information have been omitted from this message, as the content exceeds the size limit."

/-- Degradation step 0 of `getVersionPrBody` (run.ts:280-285): the raw,
undegraded message with each package contributing
`header` + blank line + `content`. -/
def step0Message (hasPublishScript preState : Bool) (branch : String)
    (changedPackagesInfo : List PackageInfo) : String :=
  joinLines
    ([messageHeader hasPublishScript branch, messagePrestate preState branch,
      messageReleasesHeading] ++
      changedPackagesInfo.map (fun info => info.header ++ "\n\n" ++ info.content))

/-- Degradation step 1 of `getVersionPrBody` (run.ts:290-296): every
package's `content` dropped, headers kept, the omission notice inserted
after the `# Releases` heading. -/
def step1Message (hasPublishScript preState : Bool) (branch : String)
    (changedPackagesInfo : List PackageInfo) : String :=
  joinLines
    ([messageHeader hasPublishScript branch, messagePrestate preState branch,
      messageReleasesHeading, noticeChangelogsOmitted] ++
      changedPackagesInfo.map (fun info => info.header ++ "\n\n"))

/-- Degradation step 2 of `getVersionPrBody` (run.ts:302-307): all
per-package information dropped; the message no longer depends on the
changed-package list. -/
def step2Message (hasPublishScript preState : Bool) (branch : String) : String :=
  joinLines
    [messageHeader hasPublishScript branch, messagePrestate preState branch,
      messageReleasesHeading, noticeAllOmitted]

/-- `getVersionPrBody` (run.ts:257-311): start from the raw message; if it
exceeds `prBodyMaxCharacters`, replace it by the step-1 message; if the
current message still exceeds the limit, replace it by the step-2 message;
return the result as-is (there is no degradation beyond step 2). -/
def getVersionPrBody (hasPublishScript preState : Bool)
    (changedPackagesInfo : List PackageInfo) (prBodyMaxCharacters : Nat)
    (branch : String) : String :=
  let fullMessage0 := step0Message hasPublishScript preState branch changedPackagesInfo
  let fullMessage1 :=
    if fullMessage0.length > prBodyMaxCharacters then
      step1Message hasPublishScript preState branch changedPackagesInfo
    else fullMessage0
  if fullMessage1.length > prBodyMaxCharacters then
    step2Message hasPublishScript preState branch
  else fullMessage1

/-- JavaScript regular-expression class `\s`: the ECMAScript WhiteSpace
and LineTerminator characters. -/
def isJsSpace (c : Char) : Bool :=
  c = ' ' || c = '\t' || c = '\n' || c = '\x0b' || c = '\x0c' || c = '\r' ||
    c.toNat = 0x00a0 || c.toNat = 0x1680 ||
    (0x2000 ≤ c.toNat && c.toNat ≤ 0x200a) ||
    c.toNat = 0x2028 || c.toNat = 0x2029 || c.toNat = 0x202f ||
    c.toNat = 0x205f || c.toNat = 0x3000 || c.toNat = 0xfeff

/-- Backtracking helper: try the continuation `k` on the candidate lengths
`n, n-1, ..., 1` in that order (a greedy `+` quantifier proposes the
longest repetition first) and return the first success. -/
def tryLens {α : Type} (k : Nat → Option α) : Nat → Option α
  | 0 => none
  | n + 1 =>
    match k (n + 1) with
    | some r => some r
    | none => tryLens k n

/-- Greedy `p+` on a character class: split `s` into a non-empty prefix of
characters satisfying `p` and the rest, preferring the longest such
prefix, and feed each split to the continuation `k consumed rest` in
backtracking order. -/
def greedyPlus {α : Type} (p : Char → Bool) (s : List Char)
    (k : List Char → List Char → Option α) : Option α :=
  tryLens (fun n => k (s.take n) (s.drop n)) (s.takeWhile p).length

/-- Tail of the multi-package regex after the capture group 1:
`@([^\s]+)` — a literal `@` followed by the greedy version capture.
`capture1` is the package name captured so far; the result is the pair of
captures `(match[1], match[2])`. -/
def matchVersionTail (capture1 : List Char) (s : List Char) :
    Option (String × String) :=
  match s with
  | '@' :: rest =>
    greedyPlus (fun c => !isJsSpace c) rest
      (fun version _ => some (⟨capture1⟩, ⟨version⟩))
  | _ => none

/-- First alternative of capture group 1: `@[^/]+\/[^@]+` (a scoped
package name), continued by `matchVersionTail`. -/
def matchScopedName (s : List Char) : Option (String × String) :=
  match s with
  | '@' :: rest =>
    greedyPlus (fun c => c ≠ '/') rest (fun scope rest2 =>
      match rest2 with
      | '/' :: rest3 =>
        greedyPlus (fun c => c ≠ '@') rest3 (fun base rest4 =>
          matchVersionTail ('@' :: (scope ++ '/' :: base)) rest4)
      | _ => none)
  | _ => none

/-- Second alternative of capture group 1: `[^/]+` (an unscoped package
name), continued by `matchVersionTail`. -/
def matchPlainName (s : List Char) : Option (String × String) :=
  match s with
  | [] => none
  | _ =>
    greedyPlus (fun c => c ≠ '/') s (fun base rest2 =>
      matchVersionTail base rest2)

/-- The multi-package regex `New tag:\s+(@[^/]+\/[^@]+|[^/]+)@([^\s]+)`
(run.ts:158) anchored at the start of `s`: the literal `New tag:`, then
greedy `\s+`, then the alternation (first alternative preferred), in
JavaScript backtracking order. -/
def matchNewTagAt (s : List Char) : Option (String × String) :=
  if ("New tag:".toList).isPrefixOf s then
    greedyPlus isJsSpace (s.drop 8) (fun _ rest =>
      match matchScopedName rest with
      | some r => some r
      | none => matchPlainName rest)
  else none

/-- `line.match(newTagRegex)` (run.ts:162): the leftmost position of the
line at which the whole pattern matches, returning the two captures. -/
def lineMatchNewTag : List Char → Option (String × String)
  | [] => none
  | s@(_ :: rest) =>
    match matchNewTagAt s with
    | some r => some r
    | none => lineMatchNewTag rest

/-- The `packagesByName` map lookup (run.ts:159, 167): a JavaScript `Map`
built from a list of `(name, package)` entries keeps the last entry per
key, so the lookup finds the last package with the given name. -/
def packagesByNameGet (packages : List Package) (pkgName : String) :
    Option Package :=
  packages.reverse.find? (fun p => p.name == pkgName)

/-- The multi-package scanning loop of `runPublish` (run.ts:161-175):
for each stdout line, match the tag regex; non-matching lines are skipped;
a matched package name absent from the package map throws; resolved
packages accumulate in encounter order with no de-duplication. -/
def publishScanMulti (packages : List Package) :
    List String → Except String (List Package)
  | [] => .ok []
  | line :: rest =>
    match lineMatchNewTag line.toList with
    | none => publishScanMulti packages rest
    | some (pkgName, _) =>
      match packagesByNameGet packages pkgName with
      | none =>
        .error ("Package \x22" ++ pkgName ++ "\x22 not found." ++
          "This is probably a bug in the action, please open an issue")
      | some pkg =>
        Except.map (fun found => pkg :: found) (publishScanMulti packages rest)

/-- Accumulator form of JavaScript `String.prototype.split("\n")`:
`acc` holds the characters of the current line in reverse. -/
def splitNewlinesAux : List Char → List Char → List String
  | [], acc => [⟨acc.reverse⟩]
  | c :: rest, acc =>
    if c = '\n' then (⟨acc.reverse⟩ : String) :: splitNewlinesAux rest []
    else splitNewlinesAux rest (c :: acc)

/-- JavaScript `stdout.split("\n")` (run.ts:161): the list of lines,
including a possibly empty first, last or middle line. -/
def splitNewlines (s : String) : List String :=
  splitNewlinesAux s.toList []

/-- Multi-package released-package computation of `runPublish`: split the
publish tool's stdout on newlines (run.ts:161) and scan the lines. -/
def runPublishMultiReleased (packages : List Package) (stdout : String) :
    Except String (List Package) :=
  publishScanMulti packages (splitNewlines stdout)

/-- Substring test on character lists, used for the capture-free
single-package regex `/New tag:/`. -/
def hasSubList (pat : List Char) : List Char → Bool
  | [] => pat.isEmpty
  | s@(_ :: rest) => pat.isPrefixOf s || hasSubList pat rest

/-- `line.match(/New tag:/)` is non-null iff the line contains the literal
substring `New tag:` (run.ts:195-198). -/
def containsNewTag (line : String) : Bool :=
  hasSubList ("New tag:".toList) line.toList

/-- The single-package scanning loop of `runPublish` (run.ts:197-210):
on the first line containing `New tag:` the lone workspace package is
recorded as released and, when `createGithubReleases` is on, one release
with tag name `v` + version is requested; scanning then stops (`break`),
so later marker lines have no effect.  Returns the released-package list
and the tag names of the requested releases. -/
def publishScanSingle (pkg : Package) (createGithubReleases : Bool) :
    List String → List Package × List String
  | [] => ([], [])
  | line :: rest =>
    if containsNewTag line then
      ([pkg], if createGithubReleases then ["v" ++ pkg.version] else [])
    else publishScanSingle pkg createGithubReleases rest

/-- `versionBranch` of `runVersion` (run.ts:342): the proposal head branch
is the fixed prefix `changeset-release/` followed by the base branch
name. -/
def versionBranchName (branch : String) : String :=
  "changeset-release/" ++ branch

/-- The primary-backend search query built by `issuesAndPullRequests`
(run.ts:508): an open-pull-request search restricted to the exact
`(base, head)` pair. -/
def searchQuery (repo branch : String) : String :=
  "repo:" ++ repo ++ "+state:open+head:" ++ versionBranchName branch ++
    "+base:" ++ branch ++ "+is:pull-request"

/-- A proposal returned by the search, reduced to the field the
reconciliation reads: its identifying `number`. -/
structure PrItem where
  number : Nat
deriving DecidableEq, Repr

/-- The write the reconciliation step of `runVersion` issues against the
host: either a pull-request creation with the given base, head, title and
body, or an in-place update of an existing pull request. -/
inductive PrAction
  | createPr (base head title body : String)
  | updatePr (pull_number : Nat) (title body : String)
deriving DecidableEq, Repr

/-- The reconciliation step of `runVersion` (run.ts:415-442): when the
search for `(branch, versionBranch)` returned zero items, create a new
pull request from `versionBranch` into `branch` and return the
backend-assigned number (`createdNumber`); otherwise update the first
item's title and body in place and return that item's number. -/
def reconcileVersionPr (branch title body : String)
    (searchItems : List PrItem) (createdNumber : Nat) : PrAction × Nat :=
  match searchItems with
  | [] =>
    (.createPr branch (versionBranchName branch) title body, createdNumber)
  | pullRequest :: _ =>
    (.updatePr pullRequest.number title body, pullRequest.number)

/-- A pull request returned by the alternate (Gitea) backend, reduced to
the fields the client-side filter reads (run.ts:452-477, 497-503). -/
structure GiteaPR where
  number : Nat
  baseRef : String
  baseRepoFullName : String
  headRef : String
  headRepoFullName : String
deriving DecidableEq, Repr

/-- The alternate-backend branch of `issuesAndPullRequests`
(run.ts:485-506): all open pull requests of the repository are fetched and
filtered client-side by same-repo ownership on both ends and by the exact
base and head refs, in the source's conjunct order. -/
def giteaOpenPullsFilter (repo branch versionBranch : String)
    (pullRequests : List GiteaPR) : List GiteaPR :=
  pullRequests.filter (fun pr =>
    pr.baseRepoFullName == repo && pr.headRepoFullName == repo &&
      pr.baseRef == branch && pr.headRef == versionBranch)

/-- A release returned by the alternate backend's release listing, with
the fields of the source's `GiteaRelease` type (run.ts:620-628); only
`tag_name` is consulted. -/
structure GiteaRelease where
  id : String
  tag_name : String
  name : String
  body : String
  draft : Bool
  prerelease : Bool
deriving DecidableEq, Repr

/-- `releasablePackages` of `runRelease` (run.ts:655-660): the non-private
workspace packages, each paired with its tag name
`<name>@<version>`. -/
def releasablePackages (packages : List Package) :
    List (Package × String) :=
  (packages.filter (fun p => !p.isPrivate)).map
    (fun p => (p, p.name ++ "@" ++ p.version))

/-- The alternate-backend pre-filter of `runRelease` (run.ts:673-684):
a releasable package enters the released accumulator iff no existing
release carries its exact tag name (`releasesByTagName[pkg.tagName]` is
falsy iff the tag is absent from the listing). -/
def giteaSelectNewReleases (existingReleases : List GiteaRelease)
    (releasable : List (Package × String)) : List (Package × String) :=
  releasable.filter (fun pt =>
    !(existingReleases.any (fun release => release.tag_name == pt.2)))

/-- The result union of `runRelease` (run.ts:611-618): either
`{released: true, releasedPackages}` with the `(name, version)` pairs, or
`{released: false}`. -/
inductive ReleasedResult
  | released (releasedPackages : List (String × String))
  | notReleased
deriving DecidableEq, Repr

/-- `runRelease` (run.ts:630-710) after the subprocess and tag push.
`giteaConfigured` is whether `process.env.GITEA_API_URL` is set,
`existingReleases` the alternate backend's release listing (consulted only
when it is).  Returns the `ReleasedResult` together with the tag names of
the `createRelease` calls issued.  A root-tool workspace with zero
packages throws (run.ts:648-653); the released accumulator is populated
only inside the alternate-backend block (run.ts:663-685). -/
def runRelease (giteaConfigured createGithubReleases : Bool)
    (tool : String) (packages : List Package)
    (existingReleases : List GiteaRelease) :
    Except String (ReleasedResult × List String) :=
  if tool == "root" && packages.length == 0 then
    .error ("No package found." ++
      "This is probably a bug in the action, please open an issue")
  else
    let releasable := releasablePackages packages
    let releasedPackages :=
      if releasable.length > 0 then
        if giteaConfigured then giteaSelectNewReleases existingReleases releasable
        else []
      else []
    let releaseCalls :=
      if releasable.length > 0 && createGithubReleases then
        releasedPackages.map (fun pt => pt.2)
      else []
    if releasedPackages.length != 0 then
      .ok (.released (releasedPackages.map (fun pt => (pt.1.name, pt.1.version))),
        releaseCalls)
    else
      .ok (.notReleased, releaseCalls)

/-! ## Auxiliary length lemmas for the body composer -/

/-- Length of a JavaScript `join("\n")`: the summed part lengths plus one
separator between consecutive parts. -/
theorem joinLines_length : ∀ (l : List String),
    (joinLines l).length = (l.map String.length).sum + (l.length - 1)
  | [] => by simp [joinLines]
  | [x] => by simp [joinLines]
  | x :: y :: ys => by
    have ih := joinLines_length (y :: ys)
    have h1 : ("\n" : String).length = 1 := rfl
    simp only [joinLines, String.length_append, h1, List.map_cons, List.sum_cons,
      List.length_cons] at ih ⊢
    omega

/-- The summed lengths of the step-0 package blocks split into the summed
header parts and the summed contents. -/
theorem packagePartsSum (infos : List PackageInfo) :
    (infos.map (fun info => (info.header ++ "\n\n" ++ info.content).length)).sum
      = (infos.map (fun info => (info.header ++ "\n\n").length)).sum
        + (infos.map (fun info => info.content.length)).sum := by
  induction infos with
  | nil => simp
  | cons i rest ih =>
    simp only [List.map_cons, List.sum_cons, ih]
    simp only [String.length_append]
    omega

/-- Exact length relation between degradation steps 1 and 0: step 1 drops
every package's content and inserts the omission notice as one more joined
part (its length plus one separator). -/
theorem step1_step0_aux (hps pre : Bool) (branch : String)
    (infos : List PackageInfo) :
    (step1Message hps pre branch infos).length
        + (infos.map (fun info => info.content.length)).sum
      = (step0Message hps pre branch infos).length
        + noticeChangelogsOmitted.length + 1 := by
  have h := packagePartsSum infos
  simp only [step0Message, step1Message, joinLines_length, List.map_append,
    List.sum_append, List.map_map, List.length_append, List.length_map,
    List.map_cons, List.map_nil, List.sum_cons, List.sum_nil, List.length_cons,
    List.length_nil, Function.comp_def]
  omega

/-! ## Claim theorems -/

/-- C1 (code bug evaluation): when the changelog file exists but
`getChangelogEntry` finds no section for the current version,
`createRelease` throws a plain `Error` — but the catch clause rethrows
only errors having a `code` property, so the error is swallowed and the
call returns silently (`skipped`) instead of failing.  The second conjunct
shows the genuinely benign case: a missing changelog file (ENOENT) also
returns silently, as intended. -/
theorem createRelease_missing_entry_silently_swallowed :
    createRelease (some "## 0.9.0\x0aold entry") (fun _ _ => none) "pkg-a" "1.0.0"
        "pkg-a@1.0.0" true = ReleaseOutcome.skipped ∧
      createRelease none (fun _ _ => none) "pkg-a" "1.0.0" "pkg-a@1.0.0" true
        = ReleaseOutcome.skipped := ⟨rfl, rfl⟩

/-- C2 (counterexample): three consecutive rate-limit responses do not
surface a failure after 2 retries.  The callback `retryCount <= 2` also
retries the third response (at `retryCount = 2`), so the call is retried
three times and, with the fourth attempt succeeding, completes with
`ok` after 3 retries — not `error` after 2. -/
theorem rateLimit_three_responses_all_retried :
    throttledAttempt [true, true, true] 0 = Except.ok 3 ∧
      throttledAttempt [true, true, true] 0 ≠ Except.error 2 :=
  ⟨rfl, fun h => Except.noConfusion h⟩

/-- C2 (amended): a primary-backend call performs up to 3 retries: the
first, second and third consecutive rate-limit responses are each retried
(`retryCount <= 2` admits retry counts 0, 1 and 2), and a fourth
consecutive rate-limit response is the one that is not retried, surfacing
the failure after exactly 3 retries, whatever responses would follow. -/
theorem rateLimit_retry_bound_amended (rest : List Bool) :
    throttledAttempt (true :: true :: true :: true :: rest) 0 = Except.error 3 ∧
      throttledAttempt [true, true, true] 0 = Except.ok 3 := ⟨rfl, rfl⟩

/-- C3 (counterexample): the step-1 output is not always at most as long
as the step-0 raw output.  For a single changed package whose changelog
content is the one-character string `x`, dropping the content saves 1
character but inserting the omission notice adds 121, so the step-1
message is strictly longer than the step-0 message. -/
theorem step1_can_exceed_step0 :
    (step0Message false false "main" [⟨0, false, "x", "## a@1.0.0"⟩]).length
      < (step1Message false false "main" [⟨0, false, "x", "## a@1.0.0"⟩]).length := by
  have h := step1_step0_aux false false "main" [⟨0, false, "x", "## a@1.0.0"⟩]
  have hc : (([⟨0, false, "x", "## a@1.0.0"⟩] : List PackageInfo).map
      (fun info => info.content.length)).sum = 1 := rfl
  have hn : noticeChangelogsOmitted.length = 120 := rfl
  omega

/-- C3 (amended): for every changed-package set, the step-1 output length
plus the total length of the dropped package contents equals the step-0
raw output length plus the length of the inserted omission notice plus one
join separator; consequently step 1's output is at most step-0's raw
output length whenever the dropped contents total at least the notice
length plus one. -/
theorem step1_length_relation (hps pre : Bool) (branch : String)
    (infos : List PackageInfo) :
    (step1Message hps pre branch infos).length
          + (infos.map (fun info => info.content.length)).sum
        = (step0Message hps pre branch infos).length
          + noticeChangelogsOmitted.length + 1
      ∧ (noticeChangelogsOmitted.length + 1
            ≤ (infos.map (fun info => info.content.length)).sum →
          (step1Message hps pre branch infos).length
            ≤ (step0Message hps pre branch infos).length) := by
  have h := step1_step0_aux hps pre branch infos
  exact ⟨h, fun hc => by omega⟩

set_option maxRecDepth 8192 in
/-- C3 (witness): with one changed package whose content is 200
characters, the dropped content exceeds the notice overhead and step 1 is
indeed no longer than step 0. -/
theorem step1_length_relation_witness :
    (step1Message false false "main"
          [⟨0, false, ⟨List.replicate 200 'x'⟩, "## a@1.0.0"⟩]).length
      ≤ (step0Message false false "main"
          [⟨0, false, ⟨List.replicate 200 'x'⟩, "## a@1.0.0"⟩]).length :=
  (step1_length_relation false false "main"
    [⟨0, false, ⟨List.replicate 200 'x'⟩, "## a@1.0.0"⟩]).2 (by decide)

/-- C4: once degradation reaches step 2 (both the raw and the step-1
message exceed the limit), the composed body is exactly the step-2
message — the fixed explanatory header, the optional pre-release block,
the `# Releases` heading and the all-omitted notice, with no dependence on
the changed-package list (`step2Message` takes no package argument), and
the degradation ladder ends there: the step-2 text is returned as-is even
if it is still over the limit.  Moreover, whenever that fixed
header-plus-notice text alone fits in `maxChars`, the composed body always
fits in `maxChars`. -/
theorem getVersionPrBody_step2_independent_and_bounded (hps pre : Bool)
    (branch : String) (infos : List PackageInfo) (maxChars : Nat) :
    ((step0Message hps pre branch infos).length > maxChars →
        (step1Message hps pre branch infos).length > maxChars →
        getVersionPrBody hps pre infos maxChars branch = step2Message hps pre branch)
      ∧ ((step2Message hps pre branch).length ≤ maxChars →
        (getVersionPrBody hps pre infos maxChars branch).length ≤ maxChars) := by
  simp only [getVersionPrBody]
  constructor
  · intro h0 h1
    rw [if_pos h0, if_pos h1]
  · intro h2
    by_cases h0 : (step0Message hps pre branch infos).length > maxChars
    · rw [if_pos h0]
      by_cases h1 : (step1Message hps pre branch infos).length > maxChars
      · rw [if_pos h1]; exact h2
      · rw [if_neg h1]; omega
    · rw [if_neg h0, if_neg h0]
      omega

set_option maxRecDepth 8192 in
/-- C4 (witness): one changed package with 200 characters of content and
the limit set to the step-2 length itself: both earlier stages overflow,
the result is the package-independent step-2 message, and it fits the
limit. -/
theorem getVersionPrBody_step2_witness :
    getVersionPrBody false false [⟨0, false, ⟨List.replicate 200 'x'⟩, "## a@1.0.0"⟩]
          ((step2Message false false "main").length) "main"
        = step2Message false false "main"
      ∧ (getVersionPrBody false false
            [⟨0, false, ⟨List.replicate 200 'x'⟩, "## a@1.0.0"⟩]
            ((step2Message false false "main").length) "main").length
          ≤ (step2Message false false "main").length := by
  have h := getVersionPrBody_step2_independent_and_bounded false false "main"
    [⟨0, false, ⟨List.replicate 200 'x'⟩, "## a@1.0.0"⟩]
    ((step2Message false false "main").length)
  exact ⟨h.1 (by decide) (by decide), h.2 (le_refl _)⟩

/-- C5: multi-package tag parsing on the spec's own examples.  The lines
`New tag: pkg-a@1.2.3`, `noise`, `New tag: @scope/pkg-b@0.0.1` against the
known packages `pkg-a` and `@scope/pkg-b` yield exactly those two packages
in encounter order; a package tagged twice yields two entries (no
de-duplication); and a matched name absent from the package map is a fatal
error with the source's message. -/
theorem runPublish_multi_tag_parsing :
    runPublishMultiReleased [⟨"pkg-a", "1.2.3", false⟩, ⟨"@scope/pkg-b", "0.0.1", false⟩]
        "New tag: pkg-a@1.2.3\nnoise\nNew tag: @scope/pkg-b@0.0.1"
        = Except.ok [⟨"pkg-a", "1.2.3", false⟩, ⟨"@scope/pkg-b", "0.0.1", false⟩] ∧
      runPublishMultiReleased [⟨"pkg-a", "1.2.3", false⟩, ⟨"@scope/pkg-b", "0.0.1", false⟩]
        "New tag: pkg-a@1.2.3\nNew tag: pkg-a@1.2.3"
        = Except.ok [⟨"pkg-a", "1.2.3", false⟩, ⟨"pkg-a", "1.2.3", false⟩] ∧
      runPublishMultiReleased [⟨"pkg-a", "1.2.3", false⟩, ⟨"@scope/pkg-b", "0.0.1", false⟩]
        "New tag: unknown-pkg@1.0.0"
        = Except.error ("Package \x22unknown-pkg\x22 not found." ++
          "This is probably a bug in the action, please open an issue") := ⟨rfl, rfl, rfl⟩

/-- C6: in single-package mode, as soon as some line contains the literal
marker `New tag:`, the scan records exactly the lone workspace package as
released — regardless of how many later lines also contain the marker —
and requests exactly one release whose tag name is `v` followed by the
package version. -/
theorem runPublish_single_first_match_wins (pkg : Package) (lines : List String)
    (h : lines.any containsNewTag = true) :
    publishScanSingle pkg true lines = ([pkg], ["v" ++ pkg.version]) := by
  induction lines with
  | nil => simp at h
  | cons line rest ih =>
    by_cases hl : containsNewTag line
    · simp [publishScanSingle, hl]
    · simp only [List.any_cons, hl, Bool.false_or] at h
      simp [publishScanSingle, hl, ih h]

/-- C6 (witness): the spec's example `["noise", "New tag: v1.0.0 created",
"New tag: v2.0.0 created"]` releases exactly one package with tag
`v1.0.0`. -/
theorem runPublish_single_first_match_wins_witness :
    publishScanSingle ⟨"only-pkg", "1.0.0", false⟩ true
        ["noise", "New tag: v1.0.0 created", "New tag: v2.0.0 created"]
        = ([⟨"only-pkg", "1.0.0", false⟩], ["v1.0.0"]) :=
  runPublish_single_first_match_wins ⟨"only-pkg", "1.0.0", false⟩ _ (by decide)

/-- C7: the proposal head branch is deterministically the fixed prefix
`changeset-release/` plus the base branch; the primary-backend search
query targets exactly that `(base, head)` pair among open pull requests;
and the reconciliation creates a new proposal exactly when the search
returned zero items, otherwise updating the first match's title and body
in place and returning that match's number — so a second run against the
same base finds the first run's proposal and updates it instead of
duplicating it. -/
theorem runVersion_find_or_create_or_update (repo branch title body : String)
    (pr : PrItem) (rest : List PrItem) (createdNumber : Nat) :
    versionBranchName branch = "changeset-release/" ++ branch ∧
      searchQuery repo branch
        = "repo:" ++ repo ++ "+state:open+head:" ++ versionBranchName branch ++
          "+base:" ++ branch ++ "+is:pull-request" ∧
      reconcileVersionPr branch title body [] createdNumber
        = (.createPr branch (versionBranchName branch) title body, createdNumber) ∧
      reconcileVersionPr branch title body (pr :: rest) createdNumber
        = (.updatePr pr.number title body, pr.number) := ⟨rfl, rfl, rfl, rfl⟩

/-- C8: the alternate backend's search returns exactly the fetched open
pull requests whose base ref is the requested base, whose head ref is the
requested head, and whose base and head repositories both carry the
repository's own full name — cross-fork pull requests are excluded. -/
theorem gitea_search_filters_exact_pair (repo branch versionBranch : String)
    (pullRequests : List GiteaPR) (pr : GiteaPR) :
    pr ∈ giteaOpenPullsFilter repo branch versionBranch pullRequests ↔
      pr ∈ pullRequests ∧ pr.baseRef = branch ∧ pr.headRef = versionBranch ∧
        pr.baseRepoFullName = repo ∧ pr.headRepoFullName = repo := by
  simp only [giteaOpenPullsFilter, List.mem_filter, Bool.and_eq_true, beq_iff_eq]
  tauto

/-- C9: on the alternate backend, a package enters the to-release set iff
it is a workspace package, it is not private, its tag name is exactly
`name@version`, and no release returned by the listing already carries
that tag — so a package whose tag already has a release record is skipped
and no duplicate release is created for it. -/
theorem gitea_release_skip_existing_tags (packages : List Package)
    (existingReleases : List GiteaRelease) (p : Package) (t : String) :
    (p, t) ∈ giteaSelectNewReleases existingReleases (releasablePackages packages) ↔
      p ∈ packages ∧ p.isPrivate = false ∧ t = p.name ++ "@" ++ p.version ∧
        ∀ r ∈ existingReleases, r.tag_name ≠ t := by
  simp only [giteaSelectNewReleases, releasablePackages, List.mem_filter,
    List.mem_map, Bool.not_eq_true', List.any_eq_false, beq_iff_eq,
    Bool.not_eq_true, Prod.mk.injEq]
  constructor
  · rintro ⟨⟨a, ⟨ha, hpriv⟩, rfl, rfl⟩, hall⟩
    exact ⟨ha, by simpa using hpriv, rfl, hall⟩
  · rintro ⟨hp, hpriv, rfl, hall⟩
    exact ⟨⟨p, ⟨hp, by simp [hpriv]⟩, rfl, rfl⟩, hall⟩

/-- C10 (counterexample): with no alternate backend configured, a
root-tool workspace with zero packages makes `runRelease` throw
`No package found...` instead of returning `{released: false}` — the one
input family on which the claim's "always returns {released: false}"
fails. -/
theorem runRelease_primary_root_empty_error :
    runRelease false true "root" [] []
        = .error ("No package found." ++
            "This is probably a bug in the action, please open an issue")
      ∧ runRelease false true "root" [] []
          ≠ Except.ok (ReleasedResult.notReleased, []) :=
  ⟨rfl, fun h => Except.noConfusion h⟩

/-- C10 (amended): when no alternate backend is configured, `runRelease`
never populates its released accumulator and never issues a release
creation call: on every input it either throws the no-package error (root
tool, zero packages) or returns `{released: false}` with zero release
calls, even when releasable packages exist and release creation is
enabled. -/
theorem runRelease_primary_backend_no_releases (createGithubReleases : Bool)
    (tool : String) (packages : List Package)
    (existingReleases : List GiteaRelease) :
    runRelease false createGithubReleases tool packages existingReleases
        = .error ("No package found." ++
            "This is probably a bug in the action, please open an issue")
      ∨ runRelease false createGithubReleases tool packages existingReleases
        = .ok (.notReleased, []) := by
  unfold runRelease
  by_cases h : (tool == "root" && packages.length == 0) = true
  · left; simp [h]
  · right; simp [h]

end ChangesetsAction
